import Mathlib

/-
Shallow embedding of the HLS streaming servers in this repository
(src/index.js and the three unnamed variants).  Pure helpers of the
JavaScript source are translated to Lean functions; the cache and the
current time are passed explicitly; the upstream resolution API and the
spawned transcoding process are modelled as oracles and as the argument
values handed to the spawn call.
-/

namespace HLSSpec

/-- JavaScript whitespace skipped by parseInt (the subset relevant here). -/
def isJsSpace (c : Char) : Bool :=
  c == ' ' || c == '\t' || c == '\n' || c == '\r'

/-- The maximal run of ASCII digits at the head of a character list
(the `\d+` capture after a match position). -/
def leadingDigits : List Char → List Char
  | [] => []
  | c :: cs => if c.isDigit then c :: leadingDigits cs else []

/-- Decimal value of a digit list (how parseInt folds captured digits). -/
def digitsToNat (ds : List Char) : Nat :=
  ds.foldl (fun acc c => acc * 10 + (c.toNat - 48)) 0

/-- Model of JavaScript parseInt(s, 10): skip leading whitespace, an
optional sign, then a digit run; NaN (no digits) is modelled as none. -/
def parseIntJS (s : String) : Option Int :=
  match s.toList.dropWhile isJsSpace with
  | '-' :: rest =>
    match leadingDigits rest with
    | [] => none
    | ds => some (-(digitsToNat ds : Int))
  | '+' :: rest =>
    match leadingDigits rest with
    | [] => none
    | ds => some (digitsToNat ds : Int)
  | cs =>
    match leadingDigits cs with
    | [] => none
    | ds => some (digitsToNat ds : Int)

/-- Whether pat is a prefix of l (character-exact). -/
def startsWithChars : List Char → List Char → Bool
  | [], _ => true
  | _ :: _, [] => false
  | p :: ps, c :: cs => p == c && startsWithChars ps cs

/-- Whether pat occurs as a contiguous run inside l. -/
def isInfixChars (pat : List Char) : List Char → Bool
  | [] => startsWithChars pat []
  | c :: cs => startsWithChars pat (c :: cs) || isInfixChars pat cs

/-- Model of JavaScript String.prototype.includes: s.includes(sub). -/
def includesJS (s sub : String) : Bool :=
  isInfixChars sub.toList s.toList

/-- If pat is a prefix of l, return the remainder, else none. -/
def dropPat : List Char → List Char → Option (List Char)
  | [], l => some l
  | _ :: _, [] => none
  | p :: ps, c :: cs => if p == c then dropPat ps cs else none

/-- The literal characters of the regular expression /expire=(\d+)/. -/
def expirePat : List Char := "expire=".toList

/-- Scan for the first position where "expire=" is followed by at least
one digit; return the maximal digit run captured there (the regex
/expire=(\d+)/ first-match capture). -/
def findExpireDigits : List Char → Option (List Char)
  | [] => none
  | c :: cs =>
    match dropPat expirePat (c :: cs) with
    | some tail =>
      match leadingDigits tail with
      | [] => findExpireDigits cs
      | d :: ds => some (d :: ds)
    | none => findExpireDigits cs

/-- url.match(/expire=(\d+)/) followed by parseInt of the capture. -/
def extractExpire (url : String) : Option Nat :=
  (findExpireDigits url.toList).map digitsToNat

/-- isUrlExpired of src/index.js lines 55-60 (also part_001 lines 53-58
and part_002 lines 55-60): no expire parameter means expired; otherwise
expired when Date.now() is past the instant minus a 300000 ms buffer.
now is Date.now() in milliseconds. -/
def isUrlExpired (now : Int) (url : String) : Bool :=
  match extractExpire url with
  | none => true
  | some e => decide ((e : Int) * 1000 - 300000 ≤ now)

/-- The spec-side notion that the URL text contains "expire=" followed
by a digit somewhere. -/
def hasExpireToken (url : String) : Prop :=
  ∃ pre d post, url.toList = pre ++ expirePat ++ d :: post ∧ d.isDigit = true

/-- videoId.match(/^[a-zA-Z0-9_-]{11}$/) as a boolean check. -/
def isValidVideoId (s : String) : Bool :=
  s.length == 11 && s.toList.all (fun c => c.isAlphanum || c == '_' || c == '-')

/-- A media format as mapped from an upstream item (fetchYouTubeData):
type, quality label, container extension and a direct URL.  An item with
no usable URL is modelled by an empty url string (JS falsiness). -/
structure MediaFormat where
  type : String
  quality : String
  extension : String
  url : String
deriving DecidableEq, Repr

/-- The value fetchYouTubeData resolves to. -/
structure ResolvedMedia where
  title : String
  thumbnail : String
  duration : ℚ
  formats : List MediaFormat
deriving DecidableEq, Repr

/-- A node-cache map entry: stored value plus its absolute expiry
instant in milliseconds (insertion time + stdTTL). -/
structure CacheEntry (α : Type) where
  value : α
  expiresAt : Int
deriving DecidableEq

/-- The node-cache store: most recent insertion first. -/
def Cache (α : Type) : Type := List (String × CacheEntry α)

/-- cache.get(key): the stored value when the entry is still live. -/
def cacheGet (now : Int) (c : Cache α) (k : String) : Option α :=
  match c.find? (fun p => p.1 == k) with
  | some p => if now < p.2.expiresAt then some p.2.value else none
  | none => none

/-- cache.set(key, v) under a TTL given in milliseconds. -/
def cacheSet (now ttlMs : Int) (c : Cache α) (k : String) (v : α) : Cache α :=
  (k, ⟨v, now + ttlMs⟩) :: c.filter (fun p => p.1 != k)

/-- The containment-only format lookup used inline by the index.js and
part_002 manifest and segment endpoints:
formats.find of quality containment and of the combined audio+video type. -/
def findFormat (formats : List MediaFormat) (quality : String) : Option MediaFormat :=
  formats.find? (fun f => includesJS f.quality quality && f.type == "video_with_audio")

/-- The two-stage selection used inline by getVideoUrl (part_000 lines
324-326, part_001 lines 76-78) and by the part_000 process endpoint:
containment match first, else the first combined audio+video format. -/
def findFormatFallback (formats : List MediaFormat) (quality : String) : Option MediaFormat :=
  match findFormat formats quality with
  | some f => some f
  | none => formats.find? (fun f => f.type == "video_with_audio")

/-- Left pad a numeral below 1000 to three digits. -/
def pad3 (n : Nat) : String :=
  if n < 10 then ("00") ++ toString n
  else if n < 100 then ("0") ++ toString n
  else toString n

/-- Model of Number.prototype.toFixed(3) for the nonnegative decimal
values produced by the manifest loops: round half up at the third
decimal place and print with exactly three fractional digits. -/
def toFixed3 (q : ℚ) : String :=
  let n : Int := ⌊q * 1000 + 1 / 2⌋
  let m : Nat := n.toNat
  toString (m / 1000) ++ "." ++ pad3 (m % 1000)

/-- Math.ceil(duration / segmentDuration), the segment-loop bound of
every on-demand variant manifest (segmentDuration = 10).  For a
nonpositive duration the JS loop body never runs, matching the Nat
ceiling being zero. -/
def numSegments (d : ℚ) : ℕ := ⌈d / 10⌉₊

/-- The declared duration of segment i:
Math.min(segmentDuration, duration - i * segmentDuration). -/
def segDur (d : ℚ) (i : ℕ) : ℚ := min 10 (d - i * 10)

/-- The ordered list of EXTINF durations emitted by the variant (and
audio) manifest loop. -/
def segmentDurations (d : ℚ) : List ℚ :=
  (List.range (numSegments d)).map (segDur d)

/-- The EXTINF/URI block of the index.js variant playlist loop
(lines 201-206). -/
def extinfBlock (videoId quality : String) (d : ℚ) : String :=
  String.join ((List.range (numSegments d)).map (fun i =>
    "#EXTINF:" ++ toFixed3 (segDur d i) ++ ",\n/stream/" ++ videoId ++
      "/segment" ++ toString i ++ "_" ++ quality ++ ".ts\n"))

/-- The fixed quality ladder iterated by the master manifest builders
(index.js line 146, part_002 line 89). -/
def qualityLevels : List String := ["360p", "480p", "720p", "1080p"]

/-- The bandwidth switch of the master manifest builders. -/
def bandwidthFor (q : String) : Nat :=
  if q == "360p" then 800000
  else if q == "480p" then 1400000
  else if q == "720p" then 2800000
  else if q == "1080p" then 5000000
  else 1000000

/-- JavaScript String.prototype.replace with a string pattern: replace
only the first occurrence. -/
def replaceFirstChars (pat rep : List Char) : List Char → List Char
  | [] => []
  | c :: cs =>
    if startsWithChars pat (c :: cs) then rep ++ (c :: cs).drop pat.length
    else c :: replaceFirstChars pat rep cs

/-- The RESOLUTION attribute value of a master manifest entry:
q.replace('p','') ++ "x" ++ String(parseInt(q)). -/
def resolutionAttr (q : String) : String :=
  String.mk (replaceFirstChars ('p' :: []) [] q.toList) ++ "x" ++
    (match parseIntJS q with
     | some n => toString n
     | none => "NaN")

/-- The numeric prefix of a quality label, as the spec words it. -/
def numericPrefix (q : String) : String :=
  String.mk (leadingDigits q.toList)

/-- One EXT-X-STREAM-INF entry of the master manifest. -/
structure VariantEntry where
  quality : String
  bandwidth : Nat
  resolution : String
  uri : String
deriving DecidableEq, Repr

/-- The variant entries emitted by the master manifest loop of index.js
(lines 152-167) and part_002 (lines 97-112): one entry per ladder
quality for which a combined format with a containing label exists. -/
def masterVariantEntries (formats : List MediaFormat) (videoId : String) : List VariantEntry :=
  qualityLevels.filterMap (fun q =>
    match findFormat formats q with
    | none => none
    | some _ => some
        ⟨q, bandwidthFor q, resolutionAttr q,
          "/stream/" ++ videoId ++ "/" ++ q ++ ".m3u8"⟩)

namespace IndexJs

/-- getVideoFormats of src/index.js lines 62-81.  The cache, the current
time and the outcome of fetchYouTubeData are passed explicitly; the
third result component records whether the upstream API was called. -/
def getVideoFormats (now : Int) (c : Cache ResolvedMedia)
    (fetch : Except String ResolvedMedia) (videoId : String)
    (forceRefresh : Bool) :
    Except String (ResolvedMedia × Cache ResolvedMedia × Bool) :=
  if !isValidVideoId videoId then .error ("Invalid YouTube video ID")
  else
    let cacheKey := videoId ++ "_formats"
    match (if forceRefresh then none else cacheGet now c cacheKey) with
    | some v => .ok (v, c, false)
    | none =>
      match fetch with
      | .error e => .error e
      | .ok data =>
        let validFormats := data.formats.filter (fun f => f.url != "")
        let result := { data with formats := validFormats }
        .ok (result, cacheSet now 18000000 c cacheKey result, true)

/-- The URL-refresh head of runFFmpeg (src/index.js lines 86-95): if the
format URL is expired, re-select from the formats of a forced refresh a
format with the same quality and type, keeping the original format when
none matches.  refreshedFormats stands for the format list returned by
getVideoFormats(videoId, true).  The Bool records whether a refresh was
performed. -/
def runFFmpegSelect (now : Int) (format : MediaFormat)
    (refreshedFormats : List MediaFormat) : MediaFormat × Bool :=
  if isUrlExpired now format.url then
    match refreshedFormats.find? (fun f =>
        f.quality == format.quality && f.type == format.type) with
    | some fresh => (fresh, true)
    | none => (format, true)
  else (format, false)

/-- The argument list built by runFFmpeg before the output options
(src/index.js lines 97-106); the URL at the -i position is the input
handed to the spawned process. -/
def baseArgs (startTime duration : Int) (url : String) : List String :=
  ["-hide_banner", "-loglevel", "error", "-ss", toString startTime,
   "-t", toString duration, "-i", url, "-reconnect", "1",
   "-reconnect_streamed", "1", "-reconnect_delay_max", "5"]

/-- The variant playlist endpoint body (src/index.js lines 182-215)
after format resolution: strict containment-only selection, then the
manifest text. -/
def variantPlaylist (videoId quality : String) (data : ResolvedMedia) :
    Except String String :=
  match findFormat data.formats quality with
  | none => .error ("Format not available")
  | some _ =>
    .ok ("#EXTM3U\n#EXT-X-VERSION:3\n#EXT-X-TARGETDURATION:10\n#EXT-X-MEDIA-SEQUENCE:0\n#EXT-X-PLAYLIST-TYPE:VOD\n"
      ++ extinfBlock videoId quality data.duration ++ "#EXT-X-ENDLIST\n")

/-- The video segment endpoint (src/index.js lines 258-274) composed
with the refresh head of runFFmpeg: the result carries the input URL
handed to the spawn call and the start offset (none models NaN).  Note
that the parsed segment index is never validated. -/
def segmentEndpoint (now : Int) (c : Cache ResolvedMedia)
    (fetch : Except String ResolvedMedia)
    (refreshedFormats : List MediaFormat)
    (videoId segNum quality : String) :
    Except String (String × Option Int) :=
  let segIndex := parseIntJS segNum
  match getVideoFormats now c fetch videoId false with
  | .error e => .error e
  | .ok (data, _, _) =>
    match findFormat data.formats quality with
    | none => .error ("Format not available")
    | some format =>
      let startTime := segIndex.map (fun i => i * 10)
      .ok (((runFFmpegSelect now format refreshedFormats).1).url, startTime)

/-- The events a segment request can observe after the spawn. -/
inductive StreamEvent
  | resClose
  | procExit (code : Int)
deriving DecidableEq

/-- Observable state of the spawned process: whether it has exited and
the signals sent to it so far. -/
structure ProcState where
  exited : Bool
  signals : List String
deriving DecidableEq

/-- One event-loop step: a response close event invokes the registered
close listener (which sends its signal); a process exit marks the
process exited. -/
def stepEvent (onResClose : Option String) (s : ProcState) :
    StreamEvent → ProcState
  | .resClose =>
    match onResClose with
    | some sig => { s with signals := s.signals ++ [sig] }
    | none => s
  | .procExit _ => { s with exited := true }

/-- The close listener runFFmpeg registers on the response
(src/index.js lines 133-135): ffmpeg.kill with the SIGTERM signal. -/
def runFFmpegCloseHandler : Option String := some ("SIGTERM")

/-- Process the whole event trace of one segment request. -/
def runEvents (onResClose : Option String) (evs : List StreamEvent) : ProcState :=
  evs.foldl (stepEvent onResClose) ⟨false, []⟩

end IndexJs

namespace Part000

/-- isUrlExpired of src/unnamed/part_000 lines 305-310: the same regex
extraction with an 1800000 ms buffer. -/
def isUrlExpired (now : Int) (url : String) : Bool :=
  match extractExpire url with
  | none => true
  | some e => decide ((e : Int) * 1000 - 1800000 ≤ now)

/-- The per-quality cache value of getVideoUrl. -/
structure VideoUrlResult where
  url : String
  title : String
  duration : ℚ
deriving DecidableEq, Repr

/-- getVideoUrl of src/unnamed/part_000 lines 313-340.  There is no
identifier validation in this variant: a cache miss (or an expired
cached URL) goes straight to the upstream API.  The Bool records
whether the upstream API was called. -/
def getVideoUrl (now : Int) (c : Cache VideoUrlResult)
    (fetch : Except String ResolvedMedia) (videoId quality : String) :
    Except String (VideoUrlResult × Cache VideoUrlResult × Bool) :=
  let cacheKey := videoId ++ "_" ++ quality
  let fetchBranch : Except String (VideoUrlResult × Cache VideoUrlResult × Bool) :=
    match fetch with
    | .error e => .error e
    | .ok data =>
      match findFormatFallback data.formats quality with
      | none => .error ("No suitable format found")
      | some format =>
        let result : VideoUrlResult := ⟨format.url, data.title, data.duration⟩
        .ok (result, cacheSet now 18000000 c cacheKey result, true)
  match cacheGet now c cacheKey with
  | some cached =>
    if isUrlExpired now cached.url then fetchBranch
    else .ok (cached, c, false)
  | none => fetchBranch

end Part000

namespace Part001

/-- getVideoUrl of src/unnamed/part_001 lines 61-92: identifier
validation first, then a cache hit only when the cached URL is not
expired (300000 ms buffer), else fetch, select with fallback and store. -/
def getVideoUrl (now : Int) (c : Cache Part000.VideoUrlResult)
    (fetch : Except String ResolvedMedia) (videoId quality : String) :
    Except String (Part000.VideoUrlResult × Cache Part000.VideoUrlResult × Bool) :=
  if !isValidVideoId videoId then .error ("Invalid YouTube video ID")
  else
    let cacheKey := videoId ++ "_" ++ quality
    let fetchBranch : Except String (Part000.VideoUrlResult × Cache Part000.VideoUrlResult × Bool) :=
      match fetch with
      | .error e => .error e
      | .ok data =>
        match findFormatFallback data.formats quality with
        | none => .error ("No suitable format found")
        | some format =>
          let result : Part000.VideoUrlResult := ⟨format.url, data.title, data.duration⟩
          .ok (result, cacheSet now 18000000 c cacheKey result, true)
    match cacheGet now c cacheKey with
    | some cached =>
      if isUrlExpired now cached.url then fetchBranch
      else .ok (cached, c, false)
    | none => fetchBranch

/-- The segment endpoint of src/unnamed/part_001 lines 139-245 up to
the spawn call: the segment number is parsed and validated, then the
identifier, before getVideoUrl is consulted; the result carries the
input URL and start offset handed to the spawn call. -/
def segmentEndpoint (now : Int) (c : Cache Part000.VideoUrlResult)
    (fetch : Except String ResolvedMedia) (videoId segNum : String) :
    Except String (String × Int) :=
  match parseIntJS segNum with
  | none => .error ("Invalid segment number")
  | some i =>
    if i < 0 then .error ("Invalid segment number")
    else if !isValidVideoId videoId then .error ("Invalid YouTube video ID")
    else
      match getVideoUrl now c fetch videoId ("720p") with
      | .error e => .error e
      | .ok (videoData, _, _) => .ok (videoData.url, i * 10)

end Part001

namespace Part002

/-- getVideoFormats of src/unnamed/part_002 lines 62-80: identifier
validation first; the cached entry is refreshed when absent or when any
cached format URL is expired.  The Bool records whether the upstream
API was called. -/
def getVideoFormats (now : Int) (c : Cache ResolvedMedia)
    (fetch : Except String ResolvedMedia) (videoId : String) :
    Except String (ResolvedMedia × Cache ResolvedMedia × Bool) :=
  if !isValidVideoId videoId then .error ("Invalid YouTube video ID")
  else
    let cacheKey := videoId ++ "_formats"
    let refresh : Except String (ResolvedMedia × Cache ResolvedMedia × Bool) :=
      match fetch with
      | .error e => .error e
      | .ok data =>
        let validFormats := data.formats.filter (fun f => f.url != "")
        let cached := { data with formats := validFormats }
        .ok (cached, cacheSet now 18000000 c cacheKey cached, true)
    match cacheGet now c cacheKey with
    | some cached =>
      if cached.formats.any (fun f => isUrlExpired now f.url) then refresh
      else .ok (cached, c, false)
    | none => refresh

end Part002

/-! Helper lemmas about the character-scanning models. -/

theorem startsWithChars_iff : ∀ (pat l : List Char),
    startsWithChars pat l = true ↔ ∃ rest, l = pat ++ rest
  | [], l => by simp [startsWithChars]
  | p :: ps, [] => by simp [startsWithChars]
  | p :: ps, c :: cs => by
    rw [startsWithChars]
    simp only [Bool.and_eq_true, beq_iff_eq, startsWithChars_iff ps cs,
      List.cons_append, List.cons.injEq]
    constructor
    · rintro ⟨h1, rest, h2⟩
      exact ⟨rest, h1.symm, h2⟩
    · rintro ⟨rest, h1, h2⟩
      exact ⟨h1.symm, rest, h2⟩

theorem isInfixChars_iff : ∀ (pat l : List Char),
    isInfixChars pat l = true ↔ ∃ pre post, l = pre ++ pat ++ post
  | pat, [] => by
    rw [isInfixChars]
    simp only [startsWithChars_iff]
    constructor
    · rintro ⟨rest, h⟩
      exact ⟨[], rest, h⟩
    · rintro ⟨pre, post, h⟩
      rw [List.append_assoc] at h
      rcases List.append_eq_nil.mp h.symm with ⟨h1, h2⟩
      exact ⟨post, by simp [h1] at h ⊢; exact h⟩
  | pat, c :: cs => by
    rw [isInfixChars]
    simp only [Bool.or_eq_true, startsWithChars_iff, isInfixChars_iff pat cs]
    constructor
    · rintro (⟨rest, h⟩ | ⟨pre, post, h⟩)
      · exact ⟨[], rest, by simpa using h⟩
      · exact ⟨c :: pre, post, by simp [h]⟩
    · rintro ⟨pre, post, h⟩
      cases pre with
      | nil => exact Or.inl ⟨post, by simpa using h⟩
      | cons a pre2 =>
        simp only [List.cons_append, List.cons.injEq] at h
        exact Or.inr ⟨pre2, post, h.2⟩

theorem includesJS_iff (s sub : String) :
    includesJS s sub = true ↔ ∃ pre post, s.toList = pre ++ sub.toList ++ post :=
  isInfixChars_iff sub.toList s.toList

theorem dropPat_eq_some_iff : ∀ (pat l t : List Char),
    dropPat pat l = some t ↔ l = pat ++ t
  | [], l, t => by
    rw [dropPat]
    simp [eq_comm]
  | p :: ps, [], t => by
    rw [dropPat]
    simp
  | p :: ps, c :: cs, t => by
    rw [dropPat]
    by_cases h : p = c
    · simp [h, dropPat_eq_some_iff ps cs t]
    · simp [h, Ne.symm h, beq_false_of_ne h]

theorem leadingDigits_eq_cons : ∀ (t d : List Char) (x : Char),
    leadingDigits t = x :: d → ∃ t2, t = x :: t2 ∧ x.isDigit = true
  | [], d, x => by
    rw [leadingDigits]
    simp
  | c :: cs, d, x => by
    rw [leadingDigits]
    by_cases h : c.isDigit
    · simp only [h, if_true, List.cons.injEq]
      rintro ⟨h1, h2⟩
      exact ⟨cs, by simp [h1], h1 ▸ h⟩
    · simp [h]

theorem leadingDigits_ne_nil_of_digit (x : Char) (t : List Char)
    (h : x.isDigit = true) : leadingDigits (x :: t) ≠ [] := by
  rw [leadingDigits]
  simp [h]

theorem findExpireDigits_none_no_match : ∀ (l : List Char),
    findExpireDigits l = none →
    ∀ pre d post, l = pre ++ expirePat ++ d :: post → d.isDigit = false
  | [] => by
    intro _ pre d post h
    exact absurd h.symm (by simp [expirePat])
  | c :: cs => by
    intro h pre d post hdec
    rw [findExpireDigits] at h
    split at h
    next tail hdp =>
      split at h
      next hld =>
        cases pre with
        | nil =>
          simp only [List.nil_append] at hdec
          have htail : tail = d :: post := by
            have h2 := (dropPat_eq_some_iff expirePat (c :: cs) (d :: post)).mpr hdec
            rw [hdp] at h2
            exact Option.some.inj h2
          by_contra hdig
          exact leadingDigits_ne_nil_of_digit d post
            (eq_true_of_ne_false (fun hf => hdig hf)) (htail ▸ hld)
        | cons a pre2 =>
          simp only [List.cons_append, List.cons.injEq] at hdec
          exact findExpireDigits_none_no_match cs h pre2 d post hdec.2
      next x rest hld =>
        exact absurd h (by simp)
    next hdp =>
      cases pre with
      | nil =>
        simp only [List.nil_append] at hdec
        have h2 := (dropPat_eq_some_iff expirePat (c :: cs) (d :: post)).mpr hdec
        rw [hdp] at h2
        exact absurd h2 (by simp)
      | cons a pre2 =>
        simp only [List.cons_append, List.cons.injEq] at hdec
        exact findExpireDigits_none_no_match cs h pre2 d post hdec.2

theorem findExpireDigits_some_match : ∀ (l ds : List Char),
    findExpireDigits l = some ds →
    ∃ pre d post, l = pre ++ expirePat ++ d :: post ∧ d.isDigit = true
  | [], ds => by
    intro h
    exact absurd h (by rw [findExpireDigits]; simp)
  | c :: cs, ds => by
    intro h
    rw [findExpireDigits] at h
    split at h
    next tail hdp =>
      split at h
      next hld =>
        rcases findExpireDigits_some_match cs ds h with ⟨pre, d, post, h1, h2⟩
        exact ⟨c :: pre, d, post, by simp [h1], h2⟩
      next x rest hld =>
        rcases leadingDigits_eq_cons tail rest x hld with ⟨t2, ht, hx⟩
        have hsplit : c :: cs = expirePat ++ tail :=
          (dropPat_eq_some_iff expirePat (c :: cs) tail).mp hdp
        exact ⟨[], x, t2, by simp [hsplit, ht], hx⟩
    next hdp =>
      rcases findExpireDigits_some_match cs ds h with ⟨pre, d, post, h1, h2⟩
      exact ⟨c :: pre, d, post, by simp [h1], h2⟩

theorem extractExpire_none_iff (url : String) :
    extractExpire url = none ↔ ¬ hasExpireToken url := by
  rw [extractExpire, Option.map_eq_none']
  constructor
  · intro h ⟨pre, d, post, hdec, hdig⟩
    have := findExpireDigits_none_no_match url.toList h pre d post hdec
    rw [hdig] at this
    simp at this
  · intro h
    cases hf : findExpireDigits url.toList with
    | none => rfl
    | some ds =>
      rcases findExpireDigits_some_match url.toList ds hf with ⟨pre, d, post, h1, h2⟩
      exact absurd ⟨pre, d, post, h1, h2⟩ h

/-! Claim theorems. -/

/-- C4: the expiry predicate returns true exactly when the URL carries no
expire=digits parameter or the current time has reached the expire
instant minus the fixed safety margin (300000 ms in the on-demand
variants, 1800000 ms in the part_000 variant); a URL whose expire
instant is in the past, or which lacks the parameter, is always
classified expired. -/
theorem C4_expiry_predicate :
    (∀ (now : Int) (url : String), isUrlExpired now url = true ↔
      (extractExpire url = none ∨
        ∃ e : ℕ, extractExpire url = some e ∧ (e : Int) * 1000 - 300000 ≤ now))
  ∧ (∀ (now : Int) (url : String), Part000.isUrlExpired now url = true ↔
      (extractExpire url = none ∨
        ∃ e : ℕ, extractExpire url = some e ∧ (e : Int) * 1000 - 1800000 ≤ now))
  ∧ (∀ url : String, extractExpire url = none ↔ ¬ hasExpireToken url)
  ∧ (∀ (now : Int) (url : String) (e : ℕ), extractExpire url = some e →
      (e : Int) * 1000 ≤ now →
      isUrlExpired now url = true ∧ Part000.isUrlExpired now url = true)
  ∧ (∀ (now : Int) (url : String), extractExpire url = none →
      isUrlExpired now url = true ∧ Part000.isUrlExpired now url = true) := by
  refine ⟨?_, ?_, extractExpire_none_iff, ?_, ?_⟩
  · intro now url
    rw [isUrlExpired]
    cases h : extractExpire url with
    | none => simp
    | some e => simp [h]
  · intro now url
    rw [Part000.isUrlExpired]
    cases h : extractExpire url with
    | none => simp
    | some e => simp [h]
  · intro now url e h hle
    rw [isUrlExpired, Part000.isUrlExpired, h]
    constructor <;> · simp only [decide_eq_true_eq]; omega
  · intro now url h
    rw [isUrlExpired, Part000.isUrlExpired, h]
    exact ⟨rfl, rfl⟩

/-- Witness for C4: a URL whose expire instant (1 second after the
epoch) lies in the past of the chosen now is classified expired by both
expiry predicates. -/
theorem C4_expiry_predicate_witness :
    isUrlExpired 2000000000000 ("https://x/?expire=1") = true ∧
      Part000.isUrlExpired 2000000000000 ("https://x/?expire=1") = true :=
  C4_expiry_predicate.2.2.2.1 2000000000000 ("https://x/?expire=1") 1
    (by decide) (by decide)

theorem numSegments_pos (d : ℚ) (hd : 0 < d) : 0 < numSegments d := by
  rw [numSegments]
  exact Nat.ceil_pos.mpr (by positivity)

theorem le_numSegments_mul (d : ℚ) : d ≤ (numSegments d : ℚ) * 10 := by
  rw [numSegments]
  have h := Nat.le_ceil (d / 10)
  have h2 : d / 10 * 10 ≤ (⌈d / 10⌉₊ : ℚ) * 10 :=
    mul_le_mul_of_nonneg_right h (by norm_num)
  calc d = d / 10 * 10 := by ring
  _ ≤ (⌈d / 10⌉₊ : ℚ) * 10 := h2

theorem numSegments_sub_one_mul_lt (d : ℚ) (hd : 0 < d) :
    ((numSegments d : ℚ) - 1) * 10 < d := by
  have hn := numSegments_pos d hd
  have h2 : numSegments d - 1 < numSegments d := Nat.sub_lt hn one_pos
  have h3 : ((numSegments d - 1 : ℕ) : ℚ) < d / 10 := by
    rw [numSegments] at h2
    exact Nat.lt_ceil.mp h2
  have hcast : ((numSegments d - 1 : ℕ) : ℚ) = (numSegments d : ℚ) - 1 := by
    have h1 : (1 : ℕ) ≤ numSegments d := hn
    push_cast [h1]
    ring
  rw [hcast] at h3
  have h4 : ((numSegments d : ℚ) - 1) * 10 < d / 10 * 10 :=
    mul_lt_mul_of_pos_right h3 (by norm_num)
  calc ((numSegments d : ℚ) - 1) * 10 < d / 10 * 10 := h4
  _ = d := by ring

theorem segmentDurations_getLast (d : ℚ) (hd : 0 < d) :
    (segmentDurations d).getLast? = some (d - ((numSegments d : ℚ) - 1) * 10) := by
  have hn := numSegments_pos d hd
  rw [segmentDurations,
    show numSegments d = (numSegments d - 1) + 1 from (Nat.succ_pred_eq_of_pos hn).symm,
    List.range_succ, List.map_append, List.map_cons, List.map_nil,
    List.getLast?_concat]
  have hcast : ((numSegments d - 1 : ℕ) : ℚ) = (numSegments d : ℚ) - 1 := by
    have h1 : (1 : ℕ) ≤ numSegments d := hn
    push_cast [h1]
    ring
  rw [segDur, hcast]
  have hle : d - ((numSegments d : ℚ) - 1) * 10 ≤ 10 := by
    have h := le_numSegments_mul d
    linarith
  rw [min_eq_right hle, Nat.sub_add_cancel hn]

/-- C3: for duration d > 0 and segment duration 10 the variant (and
audio) manifest loop lists exactly ceil(d / 10) segments, segment i is
declared with duration min(10, d - i * 10), the last declared duration
equals d - (count - 1) * 10 and lies in (0, 10]; for d = 125 this gives
13 segments with a final EXTINF value of 5.000. -/
theorem C3_variant_segment_count :
    (∀ d : ℚ, 0 < d →
      (segmentDurations d).length = numSegments d ∧
      (∀ i : ℕ, i < numSegments d →
        (segmentDurations d)[i]? = some (min 10 (d - i * 10))) ∧
      (segmentDurations d).getLast? = some (d - ((numSegments d : ℚ) - 1) * 10) ∧
      0 < d - ((numSegments d : ℚ) - 1) * 10 ∧
      d - ((numSegments d : ℚ) - 1) * 10 ≤ 10)
  ∧ numSegments 125 = 13
  ∧ (segmentDurations 125).getLast? = some 5
  ∧ toFixed3 5 = "5.000" := by
  have h125 : numSegments 125 = 13 := by
    rw [numSegments, Nat.ceil_eq_iff (by norm_num)]
    norm_num
  refine ⟨?_, h125, ?_, ?_⟩
  · intro d hd
    refine ⟨by simp [segmentDurations], ?_, segmentDurations_getLast d hd, ?_, ?_⟩
    · intro i hi
      simp [segmentDurations, segDur, hi]
    · have h := numSegments_sub_one_mul_lt d hd
      linarith
    · have h := le_numSegments_mul d
      linarith
  · rw [segmentDurations_getLast 125 (by norm_num), h125]
    norm_num
  · simp only [toFixed3]
    rw [show ⌊(5 : ℚ) * 1000 + 1 / 2⌋ = 5000 by norm_num [Int.floor_eq_iff]]
    decide

/-- Witness for C3: the general bounds instantiated at d = 125, where
the loop emits 13 segments and the final declared duration is 5. -/
theorem C3_variant_segment_count_witness :
    (segmentDurations 125).length = numSegments 125 ∧
      (segmentDurations 125).getLast? =
        some (125 - ((numSegments 125 : ℚ) - 1) * 10) :=
  ⟨(C3_variant_segment_count.1 125 (by norm_num)).1,
    (C3_variant_segment_count.1 125 (by norm_num)).2.2.1⟩

/-- C10: every variant entry of the master manifest belongs to the
fixed four-quality ladder, and its RESOLUTION attribute is NxN where N
is the numeric prefix of the quality label (width equals height). -/
theorem C10_master_resolution_square :
    ∀ (formats : List MediaFormat) (videoId : String) (e : VariantEntry),
      e ∈ masterVariantEntries formats videoId →
        e.quality ∈ qualityLevels ∧
        e.resolution = numericPrefix e.quality ++ "x" ++ numericPrefix e.quality := by
  intro formats videoId e he
  rw [masterVariantEntries, List.mem_filterMap] at he
  rcases he with ⟨q, hq, hmk⟩
  cases hfind : findFormat formats q with
  | none =>
    rw [hfind] at hmk
    simp at hmk
  | some f =>
    rw [hfind] at hmk
    simp only [Option.some.injEq] at hmk
    subst hmk
    refine ⟨hq, ?_⟩
    show resolutionAttr q = numericPrefix q ++ "x" ++ numericPrefix q
    simp only [qualityLevels, List.mem_cons, List.not_mem_nil, or_false] at hq
    rcases hq with rfl | rfl | rfl | rfl <;> decide

/-- Witness for C10: a single 720p combined format yields the single
master entry with RESOLUTION 720x720. -/
theorem C10_master_resolution_square_witness :
    (⟨"720p", 2800000, resolutionAttr ("720p"),
        "/stream/aaaaaaaaaaa/720p.m3u8"⟩ : VariantEntry).quality ∈ qualityLevels ∧
    (⟨"720p", 2800000, resolutionAttr ("720p"),
        "/stream/aaaaaaaaaaa/720p.m3u8"⟩ : VariantEntry).resolution =
      numericPrefix ("720p") ++ "x" ++ numericPrefix ("720p") :=
  C10_master_resolution_square [⟨"video_with_audio", "720p", "mp4", "u"⟩]
    ("aaaaaaaaaaa")
    ⟨"720p", 2800000, resolutionAttr ("720p"), "/stream/aaaaaaaaaaa/720p.m3u8"⟩
    (by decide)

/-- C9: quality matching is substring containment, not equality: the
selected format is the first combined audio+video format whose quality
label contains the requested token as a contiguous substring, so a
request for 720p also matches a 720p60 label, and a token such as 0p
matches a 1080p label. -/
theorem C9_quality_substring_selection :
    (∀ (s sub : String), includesJS s sub = true ↔
      ∃ pre post, s.toList = pre ++ sub.toList ++ post)
  ∧ (∀ (fs : List MediaFormat) (q : String) (f : MediaFormat),
      findFormat fs q = some f ↔
        ((includesJS f.quality q && (f.type == "video_with_audio")) = true ∧
          ∃ pre post, fs = pre ++ f :: post ∧
            ∀ g ∈ pre,
              (includesJS g.quality q && (g.type == "video_with_audio")) = false))
  ∧ findFormat [⟨"video_with_audio", "720p60", "mp4", "u1"⟩] ("720p") =
      some ⟨"video_with_audio", "720p60", "mp4", "u1"⟩
  ∧ findFormat [⟨"video_with_audio", "1080p", "mp4", "u2"⟩] ("0p") =
      some ⟨"video_with_audio", "1080p", "mp4", "u2"⟩ := by
  refine ⟨includesJS_iff, ?_, by decide, by decide⟩
  intro fs q f
  rw [findFormat, List.find?_eq_some]
  simp only [Bool.not_eq_true']

/-- Witness for C9: the selection characterization applied to a list
whose first entry is audio-only and whose second entry is the combined
format with a containing label. -/
theorem C9_quality_substring_selection_witness :
    findFormat [⟨"audio", "128k", "m4a", "a1"⟩,
        ⟨"video_with_audio", "720p60", "mp4", "u1"⟩] ("720p") =
      some ⟨"video_with_audio", "720p60", "mp4", "u1"⟩ :=
  (C9_quality_substring_selection.2.1
      [⟨"audio", "128k", "m4a", "a1"⟩, ⟨"video_with_audio", "720p60", "mp4", "u1"⟩]
      ("720p") ⟨"video_with_audio", "720p60", "mp4", "u1"⟩).mpr
    ⟨by decide, [⟨"audio", "128k", "m4a", "a1"⟩], [], rfl, by decide⟩

theorem mem_signals_stepEvent (h : Option String) (s : IndexJs.ProcState)
    (ev : IndexJs.StreamEvent) (x : String) (hx : x ∈ s.signals) :
    x ∈ (IndexJs.stepEvent h s ev).signals := by
  cases ev with
  | resClose =>
    cases h with
    | some sig =>
      simp only [IndexJs.stepEvent, List.mem_append]
      exact Or.inl hx
    | none => simpa [IndexJs.stepEvent] using hx
  | procExit code => simpa [IndexJs.stepEvent] using hx

theorem mem_signals_foldl (h : Option String) (x : String) :
    ∀ (evs : List IndexJs.StreamEvent) (s : IndexJs.ProcState),
      x ∈ s.signals → x ∈ (evs.foldl (IndexJs.stepEvent h) s).signals
  | [], _, hx => hx
  | ev :: evs, s, hx =>
    mem_signals_foldl h x evs _ (mem_signals_stepEvent h s ev x hx)

/-- C2: the close listener runFFmpeg registers on the response sends
SIGTERM to the spawned process, so in every request trace in which the
client connection closes before the process has exited, the process
receives a kill signal in response to the close event. -/
theorem C2_kill_on_disconnect :
    ∀ (pre post : List IndexJs.StreamEvent),
      (∀ code : Int, IndexJs.StreamEvent.procExit code ∉ pre) →
      "SIGTERM" ∈ (IndexJs.runEvents IndexJs.runFFmpegCloseHandler
          (pre ++ IndexJs.StreamEvent.resClose :: post)).signals := by
  intro pre post _
  rw [IndexJs.runEvents, List.foldl_append, List.foldl_cons]
  apply mem_signals_foldl
  simp [IndexJs.stepEvent, IndexJs.runFFmpegCloseHandler]

/-- Witness for C2: the trace in which the connection closes right
after the spawn and the process never exits. -/
theorem C2_kill_on_disconnect_witness :
    "SIGTERM" ∈ (IndexJs.runEvents IndexJs.runFFmpegCloseHandler
        ([] ++ IndexJs.StreamEvent.resClose :: [])).signals :=
  C2_kill_on_disconnect [] [] (by intro code h; exact absurd h (List.not_mem_nil _))

theorem cacheGet_cacheSet_same (t1 t2 ttl : Int) (c : Cache α) (k : String) (v : α) :
    cacheGet t2 (cacheSet t1 ttl c k v) k =
      if t2 < t1 + ttl then some v else none := by
  simp [cacheGet, cacheSet]

/-- C5: for a valid identifier and forceRefresh false, the resolver
returns the cached entry with no upstream call exactly when a live
cache entry exists; on a miss it consults the upstream oracle and
stores the result; hence a second resolve within the TTL window after a
successful first resolve performs no upstream call.  The part_001
resolver behaves the same with its per-quality key once the cached URL
is also unexpired. -/
theorem C5_cache_hit_no_upstream :
    (∀ (now : Int) (c : Cache ResolvedMedia) (fetch : Except String ResolvedMedia)
        (vid : String) (v : ResolvedMedia),
      isValidVideoId vid = true →
      cacheGet now c (vid ++ "_formats") = some v →
      IndexJs.getVideoFormats now c fetch vid false = .ok (v, c, false))
  ∧ (∀ (now : Int) (c : Cache ResolvedMedia) (fetch : Except String ResolvedMedia)
        (vid : String),
      isValidVideoId vid = true →
      cacheGet now c (vid ++ "_formats") = none →
      IndexJs.getVideoFormats now c fetch vid false =
        (match fetch with
         | .error e => .error e
         | .ok data =>
           let result := { data with formats := data.formats.filter (fun f => f.url != "") }
           .ok (result, cacheSet now 18000000 c (vid ++ "_formats") result, true)))
  ∧ (∀ (t1 t2 : Int) (c : Cache ResolvedMedia)
        (fetch1 fetch2 : Except String ResolvedMedia) (vid : String)
        (r : ResolvedMedia) (c2 : Cache ResolvedMedia),
      isValidVideoId vid = true →
      IndexJs.getVideoFormats t1 c fetch1 vid false = .ok (r, c2, true) →
      t2 < t1 + 18000000 →
      IndexJs.getVideoFormats t2 c2 fetch2 vid false = .ok (r, c2, false))
  ∧ (∀ (now : Int) (cu : Cache Part000.VideoUrlResult)
        (fetch : Except String ResolvedMedia) (vid q : String)
        (v : Part000.VideoUrlResult),
      isValidVideoId vid = true →
      cacheGet now cu (vid ++ "_" ++ q) = some v →
      isUrlExpired now v.url = false →
      Part001.getVideoUrl now cu fetch vid q = .ok (v, cu, false)) := by
  refine ⟨?_, ?_, ?_, ?_⟩
  · intro now c fetch vid v hvalid hcache
    simp [IndexJs.getVideoFormats, hvalid, hcache]
  · intro now c fetch vid hvalid hcache
    simp [IndexJs.getVideoFormats, hvalid, hcache]
  · intro t1 t2 c fetch1 fetch2 vid r c2 hvalid h1 ht
    rw [IndexJs.getVideoFormats] at h1
    rw [hvalid] at h1
    simp only [Bool.not_true, Bool.false_eq_true, if_false, if_true] at h1
    split at h1
    next v hv =>
      simp at h1
    next hv =>
      split at h1
      next e he => exact absurd h1 (by simp)
      next data hd =>
        simp only [Except.ok.injEq, Prod.mk.injEq] at h1
        rcases h1 with ⟨hr, hc2, _⟩
        subst hr
        subst hc2
        simp [IndexJs.getVideoFormats, hvalid, cacheGet_cacheSet_same, ht]
  · intro now cu fetch vid q v hvalid hcache hurl
    simp [Part001.getVideoUrl, hvalid, hcache, hurl]

/-- Witness for C5: after a successful resolve at time 0 for a valid
identifier, a second resolve at time 1000 is served from the cache even
though the upstream oracle now fails. -/
theorem C5_cache_hit_no_upstream_witness :
    IndexJs.getVideoFormats 1000
      [("aaaaaaaaaaa_formats",
        ⟨⟨"T", "th", 125,
          [⟨"video_with_audio", "720p", "mp4", "https://x/?expire=9999999999"⟩]⟩,
          18000000⟩)]
      (.error ("down")) ("aaaaaaaaaaa") false =
    .ok (⟨"T", "th", 125,
        [⟨"video_with_audio", "720p", "mp4", "https://x/?expire=9999999999"⟩]⟩,
      [("aaaaaaaaaaa_formats",
        ⟨⟨"T", "th", 125,
          [⟨"video_with_audio", "720p", "mp4", "https://x/?expire=9999999999"⟩]⟩,
          18000000⟩)], false) :=
  C5_cache_hit_no_upstream.2.2.1 0 1000 []
    (.ok ⟨"T", "th", 125,
      [⟨"video_with_audio", "720p", "mp4", "https://x/?expire=9999999999"⟩]⟩)
    (.error ("down")) ("aaaaaaaaaaa")
    ⟨"T", "th", 125,
      [⟨"video_with_audio", "720p", "mp4", "https://x/?expire=9999999999"⟩]⟩
    [("aaaaaaaaaaa_formats",
      ⟨⟨"T", "th", 125,
        [⟨"video_with_audio", "720p", "mp4", "https://x/?expire=9999999999"⟩]⟩,
        18000000⟩)]
    (by decide) rfl (by decide)

/-- C1 counterexample: a segment request whose selected format has an
expired URL, where the forced refresh returns a format set with no
entry of the same quality and type; runFFmpeg then keeps the original
format and places the still-expired URL at the -i input position of the
spawned process argument list. -/
theorem C1_counterexample :
    (IndexJs.runFFmpegSelect 2000000000000
        ⟨"video_with_audio", "720p", "mp4", "https://x/?expire=1"⟩ []).1.url =
      "https://x/?expire=1"
  ∧ isUrlExpired 2000000000000 ("https://x/?expire=1") = true
  ∧ (IndexJs.baseArgs 0 10 ("https://x/?expire=1"))[8]? =
      some ("https://x/?expire=1") := by
  refine ⟨?_, by decide, rfl⟩
  decide

/-- C1 amended: when the selected format URL is expired, runFFmpeg does
force a refresh and re-select a format of the same quality and type
from the refreshed set before spawning; but when the refreshed set has
no such format the original stale URL is still handed to the process,
and a re-selected URL is not re-checked for expiry. -/
theorem C1_refresh_reselect :
    ∀ (now : Int) (fmt : MediaFormat) (refreshed : List MediaFormat),
      (isUrlExpired now fmt.url = false →
        IndexJs.runFFmpegSelect now fmt refreshed = (fmt, false))
    ∧ (isUrlExpired now fmt.url = true →
        IndexJs.runFFmpegSelect now fmt refreshed =
          ((refreshed.find? (fun f =>
              f.quality == fmt.quality && f.type == fmt.type)).getD fmt, true))
    ∧ (∀ fresh, isUrlExpired now fmt.url = true →
        refreshed.find? (fun f =>
          f.quality == fmt.quality && f.type == fmt.type) = some fresh →
        IndexJs.runFFmpegSelect now fmt refreshed = (fresh, true)) := by
  intro now fmt refreshed
  refine ⟨?_, ?_, ?_⟩
  · intro h
    simp [IndexJs.runFFmpegSelect, h]
  · intro h
    rw [IndexJs.runFFmpegSelect, h]
    simp only [if_true]
    cases hf : refreshed.find? (fun f =>
        f.quality == fmt.quality && f.type == fmt.type) with
    | none => simp
    | some fresh => simp
  · intro fresh h hf
    rw [IndexJs.runFFmpegSelect, h]
    simp [hf]

/-- Witness for C1 amended: an expired format URL with a matching fresh
format in the refreshed set is replaced before the spawn. -/
theorem C1_refresh_reselect_witness :
    IndexJs.runFFmpegSelect 2000000000000
        ⟨"video_with_audio", "720p", "mp4", "https://x/?expire=1"⟩
        [⟨"video_with_audio", "720p", "mp4", "https://x/?expire=9999999999"⟩] =
      (⟨"video_with_audio", "720p", "mp4", "https://x/?expire=9999999999"⟩, true) :=
  (C1_refresh_reselect 2000000000000
      ⟨"video_with_audio", "720p", "mp4", "https://x/?expire=1"⟩
      [⟨"video_with_audio", "720p", "mp4", "https://x/?expire=9999999999"⟩]).2.2
    ⟨"video_with_audio", "720p", "mp4", "https://x/?expire=9999999999"⟩
    (by decide) (by decide)

/-- C6 counterexample: the part_000 resolver performs no identifier
validation, so on a cache miss an identifier outside the 11-character
grammar still triggers an upstream call (third component true) and
succeeds instead of failing with an invalid-identifier error. -/
theorem C6_counterexample :
    Part000.getVideoUrl 0 []
      (.ok ⟨"T", "th", 125,
        [⟨"video_with_audio", "720p", "mp4", "https://x/?expire=9999999999"⟩]⟩)
      ("bad id!") ("720p") =
    .ok (⟨"https://x/?expire=9999999999", "T", 125⟩,
      [("bad id!_720p", ⟨⟨"https://x/?expire=9999999999", "T", 125⟩, 18000000⟩)],
      true)
  ∧ isValidVideoId ("bad id!") = false :=
  ⟨rfl, by decide⟩

/-- C6 amended: the index.js, part_001 and part_002 resolvers reject an
identifier outside the [A-Za-z0-9_-]{11} grammar before any upstream
call, for every upstream oracle; the part_000 resolver does not
validate at all. -/
theorem C6_invalid_id_rejected :
    ∀ (now : Int) (c : Cache ResolvedMedia) (cu : Cache Part000.VideoUrlResult)
      (fetch : Except String ResolvedMedia) (vid q : String) (fr : Bool),
      isValidVideoId vid = false →
        IndexJs.getVideoFormats now c fetch vid fr =
          .error ("Invalid YouTube video ID")
      ∧ Part001.getVideoUrl now cu fetch vid q =
          .error ("Invalid YouTube video ID")
      ∧ Part002.getVideoFormats now c fetch vid =
          .error ("Invalid YouTube video ID") := by
  intro now c cu fetch vid q fr h
  refine ⟨?_, ?_, ?_⟩
  · simp [IndexJs.getVideoFormats, h]
  · simp [Part001.getVideoUrl, h]
  · simp [Part002.getVideoFormats, h]

/-- Witness for C6 amended: the malformed identifier from the spec
scenario is rejected by all three validating resolvers. -/
theorem C6_invalid_id_rejected_witness :
    IndexJs.getVideoFormats 0 [] (.error ("down")) ("bad id!") false =
      .error ("Invalid YouTube video ID")
    ∧ Part001.getVideoUrl 0 [] (.error ("down")) ("bad id!") ("720p") =
      .error ("Invalid YouTube video ID")
    ∧ Part002.getVideoFormats 0 [] (.error ("down")) ("bad id!") =
      .error ("Invalid YouTube video ID") :=
  C6_invalid_id_rejected 0 [] [] (.error ("down")) ("bad id!") ("720p") false
    (by decide)

/-- C7 counterexample: a format list whose only entry is a combined
audio+video format labelled 480p: the fallback selection would return
it, but the index.js variant playlist path (and the identical segment
path) uses containment-only selection and fails with Format not
available for a 720p request even though a combined format exists. -/
theorem C7_counterexample :
    findFormat [⟨"video_with_audio", "480p", "mp4", "u"⟩] ("720p") = none
  ∧ ([⟨"video_with_audio", "480p", "mp4", "u"⟩] : List MediaFormat).find?
      (fun f => f.type == "video_with_audio") =
      some ⟨"video_with_audio", "480p", "mp4", "u"⟩
  ∧ IndexJs.variantPlaylist ("aaaaaaaaaaa") ("720p")
      ⟨"T", "th", 125, [⟨"video_with_audio", "480p", "mp4", "u"⟩]⟩ =
      .error ("Format not available") :=
  ⟨by decide, by decide, rfl⟩

/-- C7 amended: the fallback policy (substring match, else first
combined format, failing only when no combined format exists) is the
one applied by getVideoUrl in part_000 and part_001; the
manifest-building and segment-synthesis endpoints of index.js and
part_002 instead apply containment-only selection and fail although a
combined format exists. -/
theorem C7_format_selection_policy :
    ∀ (fs : List MediaFormat) (q : String),
      (findFormatFallback fs q = none ↔
        fs.find? (fun f => f.type == "video_with_audio") = none)
    ∧ (∀ f, findFormat fs q = some f → findFormatFallback fs q = some f)
    ∧ (findFormat fs q = none →
        findFormatFallback fs q = fs.find? (fun f => f.type == "video_with_audio"))
    ∧ (∀ f, findFormat fs q = some f →
        (includesJS f.quality q && (f.type == "video_with_audio")) = true)
    ∧ (∀ (data : ResolvedMedia) (vid : String), findFormat data.formats q = none →
        IndexJs.variantPlaylist vid q data = .error ("Format not available")) := by
  intro fs q
  refine ⟨?_, ?_, ?_, ?_, ?_⟩
  · rw [findFormatFallback]
    cases hf : findFormat fs q with
    | none => simp
    | some f =>
      simp only [Option.some.injEq]
      constructor
      · intro h
        exact absurd h (by simp)
      · intro h
        have hp := List.find?_some hf
        have hmem := List.mem_of_find?_eq_some hf
        rw [List.find?_eq_none] at h
        have := h f hmem
        simp only [Bool.and_eq_true] at hp
        exact absurd hp.2 this
  · intro f h
    rw [findFormatFallback, h]
  · intro h
    rw [findFormatFallback, h]
  · intro f h
    rw [findFormat] at h
    have hp := List.find?_some h
    simpa using hp
  · intro data vid h
    rw [IndexJs.variantPlaylist, h]

/-- Witness for C7 amended: with no matching label, getVideoUrl-style
selection falls back to the first combined format while the variant
playlist path errors. -/
theorem C7_format_selection_policy_witness :
    findFormatFallback [⟨"video_with_audio", "480p", "mp4", "u"⟩] ("720p") =
      ([⟨"video_with_audio", "480p", "mp4", "u"⟩] : List MediaFormat).find?
        (fun f => f.type == "video_with_audio")
  ∧ IndexJs.variantPlaylist ("bbbbbbbbbbb") ("720p")
      ⟨"T", "th", 125, [⟨"video_with_audio", "480p", "mp4", "u"⟩]⟩ =
      .error ("Format not available") :=
  ⟨(C7_format_selection_policy [⟨"video_with_audio", "480p", "mp4", "u"⟩]
      ("720p")).2.2.1 (by decide),
    (C7_format_selection_policy [⟨"video_with_audio", "480p", "mp4", "u"⟩]
      ("720p")).2.2.2.2
      ⟨"T", "th", 125, [⟨"video_with_audio", "480p", "mp4", "u"⟩]⟩
      ("bbbbbbbbbbb") (by decide)⟩

/-- C8 counterexample: the index.js segment endpoint performs no
segment-index validation: with segment number -1 it resolves formats
and reaches the spawn with a negative start offset of -10 instead of
failing with an invalid-segment-index error. -/
theorem C8_counterexample :
    IndexJs.segmentEndpoint 0 []
      (.ok ⟨"T", "th", 125,
        [⟨"video_with_audio", "720p", "mp4", "https://x/?expire=9999999999"⟩]⟩)
      [] ("aaaaaaaaaaa") ("-1") ("720p") =
    .ok ("https://x/?expire=9999999999", some (-10)) := by
  rfl

/-- C8 amended: the part_001 segment endpoint fails with an
invalid-segment-index error before resolving formats or spawning when
the segment number is non-numeric or negative (for every upstream
oracle); the index.js segment endpoint performs no such validation and
proceeds to resolution and spawning for every segment number once a
format is available. -/
theorem C8_segment_index_validation :
    (∀ (now : Int) (c : Cache Part000.VideoUrlResult)
        (fetch : Except String ResolvedMedia) (vid segNum : String),
      (parseIntJS segNum = none ∨ ∃ i, parseIntJS segNum = some i ∧ i < 0) →
      Part001.segmentEndpoint now c fetch vid segNum =
        .error ("Invalid segment number"))
  ∧ (∀ (now : Int) (c : Cache ResolvedMedia)
        (fetch : Except String ResolvedMedia) (refreshed : List MediaFormat)
        (vid segNum q : String) (data : ResolvedMedia)
        (c2 : Cache ResolvedMedia) (b : Bool) (fmt : MediaFormat),
      IndexJs.getVideoFormats now c fetch vid false = .ok (data, c2, b) →
      findFormat data.formats q = some fmt →
      IndexJs.segmentEndpoint now c fetch refreshed vid segNum q =
        .ok (((IndexJs.runFFmpegSelect now fmt refreshed).1).url,
          (parseIntJS segNum).map (fun i => i * 10))) := by
  constructor
  · intro now c fetch vid segNum h
    rcases h with h | ⟨i, hi, hneg⟩
    · rw [Part001.segmentEndpoint, h]
    · rw [Part001.segmentEndpoint, hi]
      simp [hneg]
  · intro now c fetch refreshed vid segNum q data c2 b fmt h1 h2
    simp only [IndexJs.segmentEndpoint, h1, h2]

/-- Witness for C8 amended: segment number -1 is rejected by the
part_001 endpoint, while the index.js endpoint proceeds for the same
segment number. -/
theorem C8_segment_index_validation_witness :
    Part001.segmentEndpoint 0 [] (.error ("down")) ("aaaaaaaaaaa") ("-1") =
      .error ("Invalid segment number")
  ∧ IndexJs.segmentEndpoint 0 []
      (.ok ⟨"T", "th", 125,
        [⟨"video_with_audio", "720p", "mp4", "https://x/?expire=9999999999"⟩]⟩)
      [] ("bbbbbbbbbbb") ("-1") ("720p") =
    .ok ("https://x/?expire=9999999999", some (-10)) :=
  ⟨C8_segment_index_validation.1 0 [] (.error ("down")) ("aaaaaaaaaaa") ("-1")
      (Or.inr ⟨-1, by decide, by decide⟩),
    C8_segment_index_validation.2 0 []
      (.ok ⟨"T", "th", 125,
        [⟨"video_with_audio", "720p", "mp4", "https://x/?expire=9999999999"⟩]⟩)
      [] ("bbbbbbbbbbb") ("-1") ("720p")
      ⟨"T", "th", 125,
        [⟨"video_with_audio", "720p", "mp4", "https://x/?expire=9999999999"⟩]⟩
      [("bbbbbbbbbbb_formats",
        ⟨⟨"T", "th", 125,
          [⟨"video_with_audio", "720p", "mp4", "https://x/?expire=9999999999"⟩]⟩,
          18000000⟩)]
      true
      ⟨"video_with_audio", "720p", "mp4", "https://x/?expire=9999999999"⟩
      rfl (by decide)⟩

end HLSSpec
